import Mathlib

/-!
Shallow embedding of `src/screensharing/main.js` (class `ScreenShareMainHook`)
of the jitsi-meet-electron-sdk repository, together with proofs of the
behavioural properties of its event handling, tracker-window lifecycle,
cleanup and permission logic.

Modelling conventions:
* JavaScript numbers are modelled as rationals (`ℚ`); the arithmetic in the
  file stays within exactly representable values.
* Electron / host-toolkit calls performed by the coordinator are recorded as
  an explicit list of `Effect`s; coordinator-local mutable fields become the
  `CoordState` record, with a ghost list `liveTrackers` of the tracker
  windows currently alive so that "at most one tracker window exists" is a
  statement about windows, not merely about the reference field.
* Fallible JavaScript evaluation (reading a property of `undefined`/`null`
  throws a `TypeError`) is modelled with `Except String`.
-/

namespace ScreenShare

/-- Modelled from the spec: the shared control-channel name constant
`SCREEN_SHARE_EVENTS_CHANNEL` is defined in `src/screensharing/constants.js`,
which is not among the sources; the spec only requires one fixed channel
name shared by sender and receiver. -/
def SCREEN_SHARE_EVENTS_CHANNEL : String := "screen-share-events-channel"

/-- Modelled from the spec: the recognized event-name constant
`SCREEN_SHARE_EVENTS.OPEN_TRACKER` from `src/screensharing/constants.js`
(not among the sources); the spec names the four events
OPEN_TRACKER, CLOSE_TRACKER, HIDE_TRACKER, STOP_SCREEN_SHARE and only their
distinctness matters to the dispatch. -/
def OPEN_TRACKER : String := "OPEN_TRACKER"

/-- Modelled from the spec: `SCREEN_SHARE_EVENTS.CLOSE_TRACKER` (see
`OPEN_TRACKER`). -/
def CLOSE_TRACKER : String := "CLOSE_TRACKER"

/-- Modelled from the spec: `SCREEN_SHARE_EVENTS.HIDE_TRACKER` (see
`OPEN_TRACKER`). -/
def HIDE_TRACKER : String := "HIDE_TRACKER"

/-- Modelled from the spec: `SCREEN_SHARE_EVENTS.STOP_SCREEN_SHARE` (see
`OPEN_TRACKER`). -/
def STOP_SCREEN_SHARE : String := "STOP_SCREEN_SHARE"

/-- A JavaScript value, as far as the handler inspects one: `undefined`,
`null`, booleans, numbers, strings and objects (ordered field lists). -/
inductive JSValue where
  | undef : JSValue
  | null : JSValue
  | bool : Bool → JSValue
  | num : ℚ → JSValue
  | str : String → JSValue
  | obj : List (String × JSValue) → JSValue

/-- First binding of a field name in a JavaScript object's field list;
a missing field reads as `undefined`. -/
def lookupField : List (String × JSValue) → String → JSValue
  | [], _ => JSValue.undef
  | (k, v) :: rest, key => if k = key then v else lookupField rest key

/-- JavaScript property access `v[k]`: throws a `TypeError` on `undefined`
and `null`, yields the field (or `undefined`) on an object, and yields
`undefined` on other primitives (none of which has the properties the
handler reads). Destructuring `{ data }` of an argument follows the same
rule. -/
def getProp : JSValue → String → Except String JSValue
  | JSValue.undef, k => Except.error ("TypeError: cannot read " ++ k ++ " of undefined")
  | JSValue.null, k => Except.error ("TypeError: cannot read " ++ k ++ " of null")
  | JSValue.obj fields, k => Except.ok (lookupField fields k)
  | _, _ => Except.ok JSValue.undef

/-- The work area of a display (`display.workArea`): origin and size. -/
structure WorkArea where
  x : ℚ
  y : ℚ
  width : ℚ
  height : ℚ
deriving DecidableEq

/-- `TRACKER_SIZE` from `src/screensharing/constants.js` is a fixed
width × height constant; the claims only use it as an opaque fixed size, so
it is a parameter of the embedding. -/
structure TrackerSize where
  width : ℚ
  height : ℚ
deriving DecidableEq

/-- The host facts `_createScreenShareTracker` queries: the primary
display's work area (`electron.screen.getPrimaryDisplay()`), `os.platform()`,
`os.release()`, the `windowsEnableScreenProtection` predicate from
`helpers/functions` (treated as an opaque predicate on the release string,
as the claims do), and `__dirname`. -/
structure Host where
  primaryDisplayWorkArea : WorkArea
  platform : String
  osRelease : String
  windowsEnableScreenProtection : String → Bool
  dirname : String

/-- The options record passed to `new electron.BrowserWindow({...})` in
`_createScreenShareTracker`, including the `webPreferences` fields. -/
structure WindowOpts where
  height : ℚ
  width : ℚ
  x : ℚ
  y : ℚ
  transparent : Bool
  minimizable : Bool
  maximizable : Bool
  resizable : Bool
  alwaysOnTop : Bool
  fullscreen : Bool
  fullscreenable : Bool
  skipTaskbar : Bool
  frame : Bool
  «show» : Bool
  contextIsolation : Bool
  nodeIntegration : Bool
  preload : String
  sandbox : Bool
deriving DecidableEq

/-- A host-toolkit call the coordinator performs, recorded in order.
`show` and `focus` are the focus-taking operations of the window object;
the code never invokes them, and their presence in the alphabet makes that
a provable statement. -/
inductive Effect where
  | createWindow : WindowOpts → Effect
  | setContentProtection : Bool → Effect
  | close : Effect
  | minimize : Effect
  | showInactive : Effect
  | «show» : Effect
  | focus : Effect
  | loadURL : String → Effect
  | sendToMainWindow : String → JSValue → Effect
  | warn : String → JSValue → Effect
  | execCmd : String → Effect

/-- Coordinator-local state: `this._screenShareTracker` (the id of the
tracker window it references, if any), a fresh-id counter, and the ghost
list of tracker-window ids currently alive. -/
structure CoordState where
  screenShareTracker : Option Nat
  nextId : Nat
  liveTrackers : List Nat
deriving DecidableEq

/-- The coordinator state at construction: no tracker referenced, no
tracker window alive. -/
def initialState : CoordState :=
  { screenShareTracker := none, nextId := 0, liveTrackers := [] }

/-- The `BrowserWindow` options built in `_createScreenShareTracker`
(lines 107–128 of `main.js`): fixed `TRACKER_SIZE` dimensions,
`x = (display.workArea.width - TRACKER_SIZE.width) / 2`,
`y = display.workArea.height - TRACKER_SIZE.height - 5`, and the literal
boolean flags of the source. -/
def trackerWindowOpts (host : Host) (size : TrackerSize) : WindowOpts :=
  { height := size.height
    width := size.width
    x := (host.primaryDisplayWorkArea.width - size.width) / 2
    y := host.primaryDisplayWorkArea.height - size.height - 5
    transparent := true
    minimizable := true
    maximizable := false
    resizable := false
    alwaysOnTop := true
    fullscreen := false
    fullscreenable := false
    skipTaskbar := false
    frame := false
    «show» := false
    contextIsolation := true
    nodeIntegration := false
    preload := host.dirname ++ "/preload.js"
    sandbox := false }

/-- The URL loaded into the tracker window (line 150–151 of `main.js`). -/
def trackerURL (host : Host) (identity : String) : String :=
  "file://" ++ host.dirname ++ "/screenSharingTracker.html?sharingIdentity=" ++ identity

/-- The conditional content-protection step (lines 134–137 of `main.js`):
`setContentProtection(true)` exactly when
`os.platform() !== 'win32' || windowsEnableScreenProtection(os.release())`. -/
def contentProtectionEffects (host : Host) : List Effect :=
  if host.platform ≠ "win32" ∨ host.windowsEnableScreenProtection host.osRelease = true then
    [Effect.setContentProtection true]
  else
    []

/-- `_createScreenShareTracker` (lines 99–152 of `main.js`): returns
immediately if a tracker is referenced; otherwise creates one window with
`trackerWindowOpts`, conditionally content-protects it, and loads the
tracker page. The new window id is recorded as referenced and alive. -/
def createScreenShareTracker (host : Host) (size : TrackerSize) (identity : String)
    (st : CoordState) : CoordState × List Effect :=
  match st.screenShareTracker with
  | some _ => (st, [])
  | none =>
      ({ screenShareTracker := some st.nextId
         nextId := st.nextId + 1
         liveTrackers := st.nextId :: st.liveTrackers },
       Effect.createWindow (trackerWindowOpts host size)
         :: contentProtectionEffects host
         ++ [Effect.loadURL (trackerURL host identity)])

/-- `isDestroyed()` on the referenced tracker window: true when the window
is no longer alive. -/
def isDestroyed (st : CoordState) (wid : Nat) : Bool :=
  !(st.liveTrackers.contains wid)

/-- The one-time `ready-to-show` handler registered in
`_createScreenShareTracker` (lines 144–148): if the tracker reference is
set and the window is not destroyed, call `showInactive()`; nothing else. -/
def readyToShowHandler (st : CoordState) : List Effect :=
  match st.screenShareTracker with
  | some wid => if isDestroyed st wid then [] else [Effect.showInactive]
  | none => []

/-- The tracker window's `closed` handler (lines 139–141): clear the
reference. -/
def trackerClosedHandler (st : CoordState) : CoordState :=
  { st with screenShareTracker := none }

/-- The `CLOSE_TRACKER` case of `_onScreenSharingEvent` (lines 74–79):
if a tracker is referenced, `close()` it (the window ceases to be alive)
and clear the reference; otherwise do nothing. -/
def closeTracker (st : CoordState) : CoordState × List Effect :=
  match st.screenShareTracker with
  | some wid =>
      ({ st with screenShareTracker := none, liveTrackers := st.liveTrackers.erase wid },
       [Effect.close])
  | none => (st, [])

/-- The `HIDE_TRACKER` case of `_onScreenSharingEvent` (lines 80–83):
if a tracker is referenced, `minimize()` it. -/
def hideTracker (st : CoordState) : CoordState × List Effect :=
  match st.screenShareTracker with
  | some _ => (st, [Effect.minimize])
  | none => (st, [])

/-- The `switch (data.name)` dispatch of `_onScreenSharingEvent`
(lines 70–90): the four recognized string cases, with every other value of
`data.name` (any other string, or a non-string) falling to the `default`
warning. -/
def dispatch (host : Host) (size : TrackerSize) (identity : String)
    (st : CoordState) (data name : JSValue) : CoordState × List Effect :=
  match name with
  | JSValue.str s =>
      if s = OPEN_TRACKER then
        createScreenShareTracker host size identity st
      else if s = CLOSE_TRACKER then
        closeTracker st
      else if s = HIDE_TRACKER then
        hideTracker st
      else if s = STOP_SCREEN_SHARE then
        (st, [Effect.sendToMainWindow SCREEN_SHARE_EVENTS_CHANNEL (JSValue.obj [("data", data)])])
      else
        (st, [Effect.warn SCREEN_SHARE_EVENTS_CHANNEL data])
  | _ => (st, [Effect.warn SCREEN_SHARE_EVENTS_CHANNEL data])

/-- `_onScreenSharingEvent(event, { data })` (lines 69–91): destructure
`data` from the second argument, read `data.name` (either step throws on
`undefined`/`null`), then dispatch on the name. -/
def onScreenSharingEvent (host : Host) (size : TrackerSize) (identity : String)
    (st : CoordState) (arg : JSValue) : Except String (CoordState × List Effect) :=
  match getProp arg "data" with
  | Except.error e => Except.error e
  | Except.ok data =>
      match getProp data "name" with
      | Except.error e => Except.error e
      | Except.ok name => Except.ok (dispatch host size identity st data name)

/-- The coordinator state after delivering one control-channel message:
on a thrown `TypeError` the handler aborts before any state change. -/
def stepChannelMessage (host : Host) (size : TrackerSize) (identity : String)
    (st : CoordState) (arg : JSValue) : CoordState :=
  match onScreenSharingEvent host size identity st arg with
  | Except.ok (st', _) => st'
  | Except.error _ => st

/-- The coordinator state after delivering a sequence of control-channel
messages. -/
def runMessages (host : Host) (size : TrackerSize) (identity : String)
    (st : CoordState) (msgs : List JSValue) : CoordState :=
  msgs.foldl (stepChannelMessage host size identity) st

/-- The tracker-reference/window agreement maintained by channel-event
processing: the alive tracker windows are exactly the referenced one. -/
def goodState (st : CoordState) : Prop :=
  st.liveTrackers =
    (match st.screenShareTracker with
     | some wid => [wid]
     | none => [])

/-- The registration state of `electron.ipcMain` as this coordinator touches
it: the listeners installed on `SCREEN_SHARE_EVENTS_CHANNEL` (a list, since
`ipcMain` keeps a listener list per channel) and whether an invoke handler
is registered for `SCREEN_SHARE_GET_SOURCES`. -/
structure IpcMainState where
  eventsChannelListeners : List String
  getSourcesHandlerRegistered : Bool
deriving DecidableEq

/-- The identity of the bound `this._onScreenSharingEvent` listener the
constructor installs and `cleanup` removes. -/
def onScreenSharingEventListener : String := "bound _onScreenSharingEvent"

/-- The `ipcMain` registrations performed by the constructor
(lines 36–37 of `main.js`): `on(SCREEN_SHARE_EVENTS_CHANNEL, listener)` and
`handle(SCREEN_SHARE_GET_SOURCES, handler)`. -/
def constructorRegister (s : IpcMainState) : IpcMainState :=
  { eventsChannelListeners := s.eventsChannelListeners ++ [onScreenSharingEventListener]
    getSourcesHandlerRegistered := true }

/-- Node's `removeListener`: removes the first matching listener, if any;
removing an absent listener is a no-op and never throws. -/
def removeFirstListener : List String → String → List String
  | [], _ => []
  | l :: rest, target => if l = target then rest else l :: removeFirstListener rest target

/-- `cleanup` (lines 46–49 of `main.js`):
`ipcMain.removeListener(SCREEN_SHARE_EVENTS_CHANNEL, this._onScreenSharingEvent)`
followed by `ipcMain.removeHandler(SCREEN_SHARE_GET_SOURCES)`; both Electron
calls are total (a missing listener or handler is silently ignored). -/
def cleanup (s : IpcMainState) : IpcMainState :=
  { eventsChannelListeners := removeFirstListener s.eventsChannelListeners onScreenSharingEventListener
    getSourcesHandlerRegistered := false }

/-- Modelled from the spec: `isMac()` from `src/screensharing/utils.js` is
not among the sources; the spec identifies the platform requiring the
capture-permission check as macOS, i.e. `process.platform === 'darwin'`. -/
def isMac (platform : String) : Bool :=
  platform = "darwin"

/-- `_verifyScreenCapturePermissions(bundleId)` (lines 160–165 of
`main.js`): read `systemPreferences.getMediaAccessStatus('screen')`;
when it is anything other than `'granted'`, run
`exec('tccutil reset ScreenCapture ' + bundleId)`. -/
def verifyScreenCapturePermissions (mediaAccessStatus : String) (bundleId : String) :
    List Effect :=
  if mediaAccessStatus = "granted" then
    []
  else
    [Effect.execCmd ("tccutil reset ScreenCapture " ++ bundleId)]

/-- The permission side effect of the constructor (lines 31–33 of
`main.js`): `if (osxBundleId && isMac()) this._verifyScreenCapturePermissions(osxBundleId)`.
An absent bundle id is `undefined` and the empty string is also falsy in
JavaScript, so the guard requires a supplied, non-empty id. -/
def constructorPermissionEffects (platform : String) (mediaAccessStatus : String)
    (osxBundleId : Option String) : List Effect :=
  match osxBundleId with
  | some bid =>
      if bid ≠ "" ∧ isMac platform = true then
        verifyScreenCapturePermissions mediaAccessStatus bid
      else
        []
  | none => []

/-- Number of `createWindow` calls in a recorded effect list. -/
def createdWindowCount (effs : List Effect) : Nat :=
  (effs.filter fun e =>
    match e with
    | Effect.createWindow _ => true
    | _ => false).length

/-- A concrete work area with origin `(0, 0)`. -/
def workAreaA : WorkArea := { x := 0, y := 0, width := 1920, height := 1080 }

/-- A concrete macOS host used to instantiate the general theorems. -/
def hostA : Host :=
  { primaryDisplayWorkArea := workAreaA
    platform := "darwin"
    osRelease := "22.1.0"
    windowsEnableScreenProtection := fun _ => false
    dirname := "/app/screensharing" }

/-- A concrete Windows host whose release does not support
exclude-from-capture. -/
def hostWinOld : Host :=
  { primaryDisplayWorkArea := workAreaA
    platform := "win32"
    osRelease := "6.1.7601"
    windowsEnableScreenProtection := fun _ => false
    dirname := "/app/screensharing" }

/-- A concrete host whose primary display's work area has a non-zero
origin (for example a taskbar on the left and a menu bar on top). -/
def hostShifted : Host :=
  { primaryDisplayWorkArea := { x := 100, y := 40, width := 800, height := 600 }
    platform := "linux"
    osRelease := "6.1.0"
    windowsEnableScreenProtection := fun _ => false
    dirname := "/app/screensharing" }

/-- A concrete tracker size. -/
def sizeA : TrackerSize := { width := 320, height := 80 }

/-- A concrete coordinator state referencing one live tracker window. -/
def stTracker : CoordState :=
  { screenShareTracker := some 0, nextId := 1, liveTrackers := [0] }

/-- A well-formed control-channel envelope carrying an event name. -/
def envelopeOf (name : String) : JSValue :=
  JSValue.obj [("data", JSValue.obj [("name", JSValue.str name)])]

end ScreenShare

namespace ScreenShare

/-- C5: an envelope named `STOP_SCREEN_SHARE` is forwarded to the main
window on the same channel as the `\x7b data \x7d` payload with the `data`
value untouched, and the handler returns with the coordinator state (in
particular the tracker reference) unchanged. -/
theorem stop_screen_share_forwards_exact_envelope (host : Host) (size : TrackerSize)
    (identity : String) (st : CoordState) (arg data : JSValue)
    (hdata : getProp arg "data" = Except.ok data)
    (hname : getProp data "name" = Except.ok (JSValue.str STOP_SCREEN_SHARE)) :
    onScreenSharingEvent host size identity st arg =
      Except.ok (st,
        [Effect.sendToMainWindow SCREEN_SHARE_EVENTS_CHANNEL
          (JSValue.obj [("data", data)])]) := by
  simp [onScreenSharingEvent, hdata, hname, dispatch,
    STOP_SCREEN_SHARE, OPEN_TRACKER, CLOSE_TRACKER, HIDE_TRACKER]

/-- Witness for C5 at a concrete envelope. -/
theorem stop_screen_share_forwards_exact_envelope_witness :
    onScreenSharingEvent hostA sizeA "app" stTracker (envelopeOf STOP_SCREEN_SHARE) =
      Except.ok (stTracker,
        [Effect.sendToMainWindow SCREEN_SHARE_EVENTS_CHANNEL
          (JSValue.obj [("data", JSValue.obj [("name", JSValue.str STOP_SCREEN_SHARE)])])]) :=
  stop_screen_share_forwards_exact_envelope hostA sizeA "app" stTracker
    (envelopeOf STOP_SCREEN_SHARE) (JSValue.obj [("name", JSValue.str STOP_SCREEN_SHARE)])
    rfl rfl

/-- C7: `CLOSE_TRACKER` with a referenced tracker closes it and clears the
reference; with no tracker referenced it is a no-op returning normally;
and processing the envelope twice leaves the same state as processing it
once. -/
theorem close_tracker_closes_then_noop (host : Host) (size : TrackerSize)
    (identity : String) (st : CoordState) (arg data : JSValue)
    (hdata : getProp arg "data" = Except.ok data)
    (hname : getProp data "name" = Except.ok (JSValue.str CLOSE_TRACKER)) :
    (∀ wid, st.screenShareTracker = some wid →
      onScreenSharingEvent host size identity st arg =
        Except.ok ({ st with
                      screenShareTracker := none
                      liveTrackers := st.liveTrackers.erase wid }, [Effect.close]))
    ∧ (st.screenShareTracker = none →
        onScreenSharingEvent host size identity st arg = Except.ok (st, []))
    ∧ stepChannelMessage host size identity
        (stepChannelMessage host size identity st arg) arg
      = stepChannelMessage host size identity st arg := by
  have hev : ∀ s : CoordState, onScreenSharingEvent host size identity s arg =
      Except.ok (closeTracker s) := by
    intro s
    simp [onScreenSharingEvent, hdata, hname, dispatch,
      STOP_SCREEN_SHARE, OPEN_TRACKER, CLOSE_TRACKER, HIDE_TRACKER]
  refine ⟨?_, ?_, ?_⟩
  · intro wid hw
    rw [hev st]
    simp [closeTracker, hw]
  · intro hn
    rw [hev st]
    simp [closeTracker, hn]
  · simp only [stepChannelMessage, hev]
    cases hw : st.screenShareTracker with
    | some wid => simp [closeTracker, hw]
    | none => simp [closeTracker, hw]

/-- Witness for C7 at a concrete state with a live tracker. -/
theorem close_tracker_closes_then_noop_witness :
    onScreenSharingEvent hostA sizeA "app" stTracker (envelopeOf CLOSE_TRACKER) =
      Except.ok ({ stTracker with
                    screenShareTracker := none
                    liveTrackers := stTracker.liveTrackers.erase 0 }, [Effect.close]) :=
  (close_tracker_closes_then_noop hostA sizeA "app" stTracker
    (envelopeOf CLOSE_TRACKER) (JSValue.obj [("name", JSValue.str CLOSE_TRACKER)])
    rfl rfl).1 0 rfl

/-- C8: an envelope whose `data.name` is none of the four recognized
names (any other string, or a non-string value) makes the handler log one
warning and return normally with the coordinator state unchanged; the
embedding's main-window reference, identity and registration state are
parameters the handler never writes. -/
theorem unrecognized_event_warns_and_preserves_state (host : Host) (size : TrackerSize)
    (identity : String) (st : CoordState) (arg data name : JSValue)
    (hdata : getProp arg "data" = Except.ok data)
    (hname : getProp data "name" = Except.ok name)
    (hnot : ∀ s, name = JSValue.str s →
      s ≠ OPEN_TRACKER ∧ s ≠ CLOSE_TRACKER ∧ s ≠ HIDE_TRACKER ∧ s ≠ STOP_SCREEN_SHARE) :
    onScreenSharingEvent host size identity st arg =
      Except.ok (st, [Effect.warn SCREEN_SHARE_EVENTS_CHANNEL data]) := by
  simp only [onScreenSharingEvent, hdata, hname]
  cases name with
  | str s =>
      obtain ⟨h1, h2, h3, h4⟩ := hnot s rfl
      simp [dispatch, h1, h2, h3, h4]
  | undef => simp [dispatch]
  | null => simp [dispatch]
  | bool b => simp [dispatch]
  | num q => simp [dispatch]
  | obj fields => simp [dispatch]

/-- Witness for C8 at a concrete unrecognized event name. -/
theorem unrecognized_event_warns_and_preserves_state_witness :
    onScreenSharingEvent hostA sizeA "app" stTracker (envelopeOf "RESIZE_TRACKER") =
      Except.ok (stTracker,
        [Effect.warn SCREEN_SHARE_EVENTS_CHANNEL
          (JSValue.obj [("name", JSValue.str "RESIZE_TRACKER")])]) :=
  unrecognized_event_warns_and_preserves_state hostA sizeA "app" stTracker
    (envelopeOf "RESIZE_TRACKER") (JSValue.obj [("name", JSValue.str "RESIZE_TRACKER")])
    (JSValue.str "RESIZE_TRACKER") rfl rfl
    (fun s hs => by
      cases hs
      refine ⟨?_, ?_, ?_, ?_⟩ <;> decide)

/-- Every effect `_createScreenShareTracker` records is the window
creation, the optional content protection, or the page load. -/
lemma mem_createScreenShareTracker_effects {host : Host} {size : TrackerSize}
    {identity : String} {st : CoordState} {e : Effect}
    (h : e ∈ (createScreenShareTracker host size identity st).2) :
    e = Effect.createWindow (trackerWindowOpts host size)
    ∨ e = Effect.setContentProtection true
    ∨ e = Effect.loadURL (trackerURL host identity) := by
  unfold createScreenShareTracker at h
  cases hst : st.screenShareTracker with
  | some wid =>
      rw [hst] at h
      simp at h
  | none =>
      rw [hst] at h
      by_cases hc : host.platform ≠ "win32" ∨ host.windowsEnableScreenProtection host.osRelease = true
      · simp [contentProtectionEffects, hc] at h
        tauto
      · simp [contentProtectionEffects, hc] at h
        tauto

/-- C2: the one-time ready-to-show handler only ever invokes
`showInactive` on the tracker; `_createScreenShareTracker` itself never
records a focus-taking `show` or `focus` call and creates the window with
the `show: false` option, so the tracker is never given input focus at
creation time. -/
theorem tracker_shown_inactive_never_focused (host : Host) (size : TrackerSize)
    (identity : String) (st stReady : CoordState) :
    (∀ e, e ∈ readyToShowHandler stReady → e = Effect.showInactive)
    ∧ Effect.«show» ∉ (createScreenShareTracker host size identity st).2
    ∧ Effect.focus ∉ (createScreenShareTracker host size identity st).2
    ∧ (∀ opts, Effect.createWindow opts ∈ (createScreenShareTracker host size identity st).2 →
        opts.«show» = false) := by
  refine ⟨?_, ?_, ?_, ?_⟩
  · intro e he
    unfold readyToShowHandler at he
    cases hst : stReady.screenShareTracker with
    | some wid =>
        rw [hst] at he
        by_cases hd : isDestroyed stReady wid
        · simp [hd] at he
        · simp [hd] at he
          exact he
    | none =>
        rw [hst] at he
        simp at he
  · intro hmem
    rcases mem_createScreenShareTracker_effects hmem with h | h | h <;> exact Effect.noConfusion h
  · intro hmem
    rcases mem_createScreenShareTracker_effects hmem with h | h | h <;> exact Effect.noConfusion h
  · intro opts hmem
    rcases mem_createScreenShareTracker_effects hmem with h | h | h
    · cases h
      rfl
    · exact Effect.noConfusion h
    · exact Effect.noConfusion h

/-- Witness for C2 at a concrete creation and a concrete ready state. -/
theorem tracker_shown_inactive_never_focused_witness :
    Effect.showInactive = Effect.showInactive
    ∧ (trackerWindowOpts hostA sizeA).«show» = false := by
  have h := tracker_shown_inactive_never_focused hostA sizeA "app" initialState stTracker
  refine ⟨h.1 Effect.showInactive ?_, h.2.2.2 (trackerWindowOpts hostA sizeA) ?_⟩
  · show Effect.showInactive ∈ readyToShowHandler stTracker
    simp [readyToShowHandler, stTracker, isDestroyed]
  · show Effect.createWindow (trackerWindowOpts hostA sizeA)
      ∈ (createScreenShareTracker hostA sizeA "app" initialState).2
    simp [createScreenShareTracker, initialState]

/-- C6: when a tracker window is created, `setContentProtection(true)` is
recorded exactly when the platform differs from Windows or
`windowsEnableScreenProtection` accepts the OS release; on a Windows
release lacking the capability, no `setContentProtection` call of any kind
is recorded. -/
theorem content_protection_iff_supported (host : Host) (size : TrackerSize)
    (identity : String) (st : CoordState) (h : st.screenShareTracker = none) :
    (Effect.setContentProtection true ∈ (createScreenShareTracker host size identity st).2 ↔
      (host.platform ≠ "win32" ∨ host.windowsEnableScreenProtection host.osRelease = true))
    ∧ (host.platform = "win32" → host.windowsEnableScreenProtection host.osRelease = false →
        ∀ b, Effect.setContentProtection b ∉ (createScreenShareTracker host size identity st).2) := by
  constructor
  · constructor
    · intro hmem
      unfold createScreenShareTracker at hmem
      rw [h] at hmem
      by_cases hc : host.platform ≠ "win32" ∨ host.windowsEnableScreenProtection host.osRelease = true
      · exact hc
      · simp [contentProtectionEffects, hc] at hmem
    · intro hc
      unfold createScreenShareTracker
      rw [h]
      simp [contentProtectionEffects, hc]
  · intro hp hf b hmem
    rcases mem_createScreenShareTracker_effects hmem with hh | hh | hh
    · exact Effect.noConfusion hh
    · cases hh
      unfold createScreenShareTracker at hmem
      rw [h] at hmem
      have hc : ¬ (host.platform ≠ "win32" ∨ host.windowsEnableScreenProtection host.osRelease = true) := by
        simp [hp, hf]
      simp [contentProtectionEffects, hc] at hmem
    · exact Effect.noConfusion hh

/-- Witness for C6 on an old Windows host without the capability. -/
theorem content_protection_iff_supported_witness :
    Effect.setContentProtection true ∉
      (createScreenShareTracker hostWinOld sizeA "app" initialState).2 :=
  (content_protection_iff_supported hostWinOld sizeA "app" initialState rfl).2
    rfl rfl true

/-- The tracker placement the claim describes: computed from the primary
display's work area including its origin, horizontally centered within the
work area, with the window's bottom edge a fixed 5-pixel margin above the
work area's bottom edge. -/
def specCenteredPlacement (wa : WorkArea) (size : TrackerSize) : ℚ × ℚ :=
  (wa.x + (wa.width - size.width) / 2, wa.y + wa.height - size.height - 5)

/-- Counterexample to C3: on a host whose primary work area has origin
`(100, 40)`, the created window's position `(240, 515)` is not the
position `(340, 555)` that is horizontally centered within the work area
and a fixed margin above its bottom edge — the code ignores the origin. -/
theorem tracker_placement_ignores_origin_counterexample :
    Effect.createWindow (trackerWindowOpts hostShifted sizeA) ∈
      (createScreenShareTracker hostShifted sizeA "app" initialState).2
    ∧ (trackerWindowOpts hostShifted sizeA).x = 240
    ∧ (trackerWindowOpts hostShifted sizeA).y = 515
    ∧ specCenteredPlacement hostShifted.primaryDisplayWorkArea sizeA = (340, 555)
    ∧ (trackerWindowOpts hostShifted sizeA).x ≠
        (specCenteredPlacement hostShifted.primaryDisplayWorkArea sizeA).1
    ∧ (trackerWindowOpts hostShifted sizeA).y ≠
        (specCenteredPlacement hostShifted.primaryDisplayWorkArea sizeA).2 := by
  refine ⟨?_, ?_, ?_, ?_, ?_, ?_⟩
  · simp [createScreenShareTracker, initialState]
  · norm_num [trackerWindowOpts, hostShifted, sizeA]
  · norm_num [trackerWindowOpts, hostShifted, sizeA]
  · norm_num [specCenteredPlacement, hostShifted, sizeA]
  · norm_num [trackerWindowOpts, specCenteredPlacement, hostShifted, sizeA]
  · norm_num [trackerWindowOpts, specCenteredPlacement, hostShifted, sizeA]

/-- C3 amended: the created window uses the fixed `TRACKER_SIZE`
dimensions and the position
`((workArea.width - width) / 2, workArea.height - height - 5)`, computed
from the work area's width and height only; this coincides with being
horizontally centered within the work area with a fixed 5-pixel margin
above its bottom edge exactly when the work area's origin is `(0, 0)`. -/
theorem tracker_placement_amended (host : Host) (size : TrackerSize)
    (identity : String) (st : CoordState) (h : st.screenShareTracker = none) :
    Effect.createWindow (trackerWindowOpts host size) ∈
      (createScreenShareTracker host size identity st).2
    ∧ (trackerWindowOpts host size).width = size.width
    ∧ (trackerWindowOpts host size).height = size.height
    ∧ (trackerWindowOpts host size).x =
        (host.primaryDisplayWorkArea.width - size.width) / 2
    ∧ (trackerWindowOpts host size).y =
        host.primaryDisplayWorkArea.height - size.height - 5
    ∧ (host.primaryDisplayWorkArea.x = 0 → host.primaryDisplayWorkArea.y = 0 →
        ((trackerWindowOpts host size).x, (trackerWindowOpts host size).y) =
          specCenteredPlacement host.primaryDisplayWorkArea size) := by
  refine ⟨?_, rfl, rfl, rfl, rfl, ?_⟩
  · unfold createScreenShareTracker
    rw [h]
    simp
  · intro hx hy
    simp [trackerWindowOpts, specCenteredPlacement, hx, hy]

/-- Witness for C3 (amended) on a concrete zero-origin host. -/
theorem tracker_placement_amended_witness :
    ((trackerWindowOpts hostA sizeA).x, (trackerWindowOpts hostA sizeA).y) =
      specCenteredPlacement hostA.primaryDisplayWorkArea sizeA :=
  (tracker_placement_amended hostA sizeA "app" initialState rfl).2.2.2.2.2 rfl rfl

/-- Counterexample to C4: on macOS with a bundle id supplied and media
access status `not-determined` — a status that is not a previous denial —
the constructor still issues the `tccutil` reset command. -/
theorem permission_reset_counterexample :
    constructorPermissionEffects "darwin" "not-determined" (some "org.example.app")
      = [Effect.execCmd "tccutil reset ScreenCapture org.example.app"]
    ∧ "not-determined" ≠ "denied" := by
  constructor
  · rfl
  · decide

/-- C4 amended: the reset command is issued if and only if a non-empty
bundle id is supplied, the platform is macOS, and the screen media access
status is anything other than `granted` (not only when it is `denied`);
in particular nothing is issued when permission is granted, when no bundle
id is supplied, or off macOS. -/
theorem permission_reset_iff_not_granted (platform status b : String) :
    (constructorPermissionEffects platform status (some b) ≠ [] ↔
      (b ≠ "" ∧ isMac platform = true ∧ status ≠ "granted"))
    ∧ constructorPermissionEffects platform "granted" (some b) = []
    ∧ constructorPermissionEffects platform status none = []
    ∧ (isMac platform = false → constructorPermissionEffects platform status (some b) = [])
    ∧ constructorPermissionEffects platform status (some "") = [] := by
  refine ⟨?_, ?_, rfl, ?_, ?_⟩
  · unfold constructorPermissionEffects verifyScreenCapturePermissions
    by_cases hb : b = ""
    · simp [hb]
    · by_cases hm : isMac platform = true
      · by_cases hg : status = "granted"
        · simp [hb, hm, hg]
        · simp [hb, hm, hg]
      · simp [hb, hm]
  · unfold constructorPermissionEffects verifyScreenCapturePermissions
    by_cases hb : b = "" <;> simp [hb]
  · intro hm
    unfold constructorPermissionEffects
    simp [hm]
  · unfold constructorPermissionEffects
    simp

/-- Witness for C4 (amended) at concrete inputs. -/
theorem permission_reset_iff_not_granted_witness :
    constructorPermissionEffects "darwin" "denied" (some "org.example.app") ≠ [] :=
  (permission_reset_iff_not_granted "darwin" "denied" "org.example.app").1.mpr
    ⟨by decide, by decide, by decide⟩

/-- A listener absent from a listener list is untouched by
`removeListener`. -/
lemma removeFirstListener_of_not_mem {l : List String} {t : String} (h : t ∉ l) :
    removeFirstListener l t = l := by
  induction l with
  | nil => rfl
  | cons x rest ih =>
      have hx : ¬ x = t := fun he => h (by simp [he])
      have hrest : t ∉ rest := fun hm => h (List.mem_cons_of_mem _ hm)
      simp [removeFirstListener, hx, ih hrest]

/-- `removeListener` removes a listener registered once at the end of the
list. -/
lemma removeFirstListener_append_singleton {l : List String} {t : String} (h : t ∉ l) :
    removeFirstListener (l ++ [t]) t = l := by
  induction l with
  | nil => simp [removeFirstListener]
  | cons x rest ih =>
      have hx : ¬ x = t := fun he => h (by simp [he])
      have hrest : t ∉ rest := fun hm => h (List.mem_cons_of_mem _ hm)
      simp [removeFirstListener, hx, ih hrest]

/-- C9: after the constructor's registrations, one `cleanup` deregisters
both the control-channel listener and the source-enumeration handler, and
a second `cleanup` — with nothing left registered — changes nothing:
`cleanup` composed with `cleanup` equals `cleanup`. Both underlying
Electron removals are total functions, so no call throws. -/
theorem cleanup_deregisters_both_and_is_idempotent (s : IpcMainState)
    (h : onScreenSharingEventListener ∉ s.eventsChannelListeners) :
    (onScreenSharingEventListener ∉
        (cleanup (constructorRegister s)).eventsChannelListeners
      ∧ (cleanup (constructorRegister s)).getSourcesHandlerRegistered = false)
    ∧ cleanup (cleanup (constructorRegister s)) = cleanup (constructorRegister s) := by
  have hclean : cleanup (constructorRegister s) =
      { eventsChannelListeners := s.eventsChannelListeners
        getSourcesHandlerRegistered := false } := by
    simp [cleanup, constructorRegister, removeFirstListener_append_singleton h]
  refine ⟨⟨?_, ?_⟩, ?_⟩
  · rw [hclean]
    exact h
  · rw [hclean]
  · rw [hclean]
    simp [cleanup, removeFirstListener_of_not_mem h]

/-- Witness for C9 starting from an empty `ipcMain` registration state. -/
theorem cleanup_deregisters_both_and_is_idempotent_witness :
    cleanup (cleanup (constructorRegister { eventsChannelListeners := []
                                            getSourcesHandlerRegistered := false }))
      = cleanup (constructorRegister { eventsChannelListeners := []
                                       getSourcesHandlerRegistered := false }) :=
  (cleanup_deregisters_both_and_is_idempotent
    { eventsChannelListeners := [], getSourcesHandlerRegistered := false }
    (by simp)).2

/-- Property access on a value other than `undefined` and `null` never
throws. -/
lemma getProp_ok_of_not_nullish (v : JSValue) (k : String)
    (h1 : v ≠ JSValue.undef) (h2 : v ≠ JSValue.null) :
    ∃ w, getProp v k = Except.ok w := by
  cases v with
  | undef => exact absurd rfl h1
  | null => exact absurd rfl h2
  | bool b => exact ⟨JSValue.undef, rfl⟩
  | num q => exact ⟨JSValue.undef, rfl⟩
  | str s => exact ⟨JSValue.undef, rfl⟩
  | obj fields => exact ⟨lookupField fields k, rfl⟩

/-- Property access throws only on `undefined` and `null`. -/
lemma nullish_of_getProp_error {v : JSValue} {k e : String}
    (h : getProp v k = Except.error e) :
    v = JSValue.undef ∨ v = JSValue.null := by
  cases v with
  | undef => exact Or.inl rfl
  | null => exact Or.inr rfl
  | bool b => exact Except.noConfusion h
  | num q => exact Except.noConfusion h
  | str s => exact Except.noConfusion h
  | obj fields => exact Except.noConfusion h

/-- Counterexample to C10: a payload whose `data` is an object without a
`name` property does not make the handler throw; `data.name` evaluates to
`undefined`, the dispatch `switch` runs, and the `default` branch logs the
unhandled-event warning. -/
theorem data_without_name_warns_counterexample :
    onScreenSharingEvent hostA sizeA "app" initialState
        (JSValue.obj [("data", JSValue.obj [])])
      = Except.ok (initialState,
          [Effect.warn SCREEN_SHARE_EVENTS_CHANNEL (JSValue.obj [])])
    ∧ ∀ e, onScreenSharingEvent hostA sizeA "app" initialState
        (JSValue.obj [("data", JSValue.obj [])]) ≠ Except.error e := by
  have h1 : onScreenSharingEvent hostA sizeA "app" initialState
      (JSValue.obj [("data", JSValue.obj [])])
      = Except.ok (initialState,
          [Effect.warn SCREEN_SHARE_EVENTS_CHANNEL (JSValue.obj [])]) := rfl
  refine ⟨h1, fun e he => ?_⟩
  rw [h1] at he
  exact Except.noConfusion he

/-- C10 amended: the handler throws a `TypeError` before dispatching if
and only if the delivered payload itself or its `data` field is
`undefined` or `null` (in particular when the payload lacks a `data`
field); every payload whose `data` is any other value — including an
object without a `name` property and non-object primitives — reaches the
dispatch `switch`. -/
theorem handler_throws_iff_data_nullish (host : Host) (size : TrackerSize)
    (identity : String) (st : CoordState) (arg : JSValue) :
    ((∃ e, onScreenSharingEvent host size identity st arg = Except.error e) ↔
      (arg = JSValue.undef ∨ arg = JSValue.null
        ∨ ∃ d, getProp arg "data" = Except.ok d
            ∧ (d = JSValue.undef ∨ d = JSValue.null)))
    ∧ (∀ d, getProp arg "data" = Except.ok d →
        d ≠ JSValue.undef → d ≠ JSValue.null →
        ∃ name, getProp d "name" = Except.ok name
          ∧ onScreenSharingEvent host size identity st arg =
              Except.ok (dispatch host size identity st d name)) := by
  constructor
  · constructor
    · rintro ⟨e, he⟩
      by_cases ha1 : arg = JSValue.undef
      · exact Or.inl ha1
      by_cases ha2 : arg = JSValue.null
      · exact Or.inr (Or.inl ha2)
      obtain ⟨d, hd⟩ := getProp_ok_of_not_nullish arg "data" ha1 ha2
      refine Or.inr (Or.inr ⟨d, hd, ?_⟩)
      simp only [onScreenSharingEvent, hd] at he
      cases hn : getProp d "name" with
      | error e2 => exact nullish_of_getProp_error hn
      | ok name =>
          rw [hn] at he
          exact Except.noConfusion he
    · rintro (ha | ha | ⟨d, hd, hnull⟩)
      · exact ⟨"TypeError: cannot read data of undefined",
          by simp [onScreenSharingEvent, ha, getProp]⟩
      · exact ⟨"TypeError: cannot read data of null",
          by simp [onScreenSharingEvent, ha, getProp]⟩
      · rcases hnull with hnu | hnu
        · subst hnu
          refine ⟨"TypeError: cannot read name of undefined", ?_⟩
          simp only [onScreenSharingEvent, hd]
          rfl
        · subst hnu
          refine ⟨"TypeError: cannot read name of null", ?_⟩
          simp only [onScreenSharingEvent, hd]
          rfl
  · intro d hd hdu hdn
    obtain ⟨name, hn⟩ := getProp_ok_of_not_nullish d "name" hdu hdn
    exact ⟨name, hn, by simp [onScreenSharingEvent, hd, hn]⟩

/-- Witness for C10 (amended): a payload without a `data` field throws. -/
theorem handler_throws_iff_data_nullish_witness :
    ∃ e, onScreenSharingEvent hostA sizeA "app" initialState (JSValue.obj [])
      = Except.error e :=
  (handler_throws_iff_data_nullish hostA sizeA "app" initialState (JSValue.obj [])).1.mpr
    (Or.inr (Or.inr ⟨JSValue.undef, rfl, Or.inl rfl⟩))

/-- The initial coordinator state is well-formed. -/
lemma goodState_initialState : goodState initialState := rfl

/-- `_createScreenShareTracker` preserves the tracker-reference/window
agreement. -/
lemma goodState_create (host : Host) (size : TrackerSize) (identity : String)
    {st : CoordState} (h : goodState st) :
    goodState (createScreenShareTracker host size identity st).1 := by
  cases hst : st.screenShareTracker with
  | some wid =>
      simp only [createScreenShareTracker, hst]
      exact h
  | none =>
      have hl : st.liveTrackers = [] := by
        unfold goodState at h
        rw [hst] at h
        exact h
      simp only [createScreenShareTracker, hst]
      unfold goodState
      simp [hl]

/-- The `CLOSE_TRACKER` case preserves the tracker-reference/window
agreement. -/
lemma goodState_close {st : CoordState} (h : goodState st) :
    goodState (closeTracker st).1 := by
  cases hst : st.screenShareTracker with
  | some wid =>
      have hl : st.liveTrackers = [wid] := by
        unfold goodState at h
        rw [hst] at h
        exact h
      simp only [closeTracker, hst]
      unfold goodState
      simp [hl]
  | none =>
      simp only [closeTracker, hst]
      exact h

/-- The `HIDE_TRACKER` case leaves the coordinator state unchanged. -/
lemma hideTracker_fst (st : CoordState) : (hideTracker st).1 = st := by
  cases hst : st.screenShareTracker <;> simp [hideTracker, hst]

/-- Dispatching any event preserves the tracker-reference/window
agreement. -/
lemma goodState_dispatch (host : Host) (size : TrackerSize) (identity : String)
    {st : CoordState} (data name : JSValue) (h : goodState st) :
    goodState (dispatch host size identity st data name).1 := by
  cases name with
  | str s =>
      simp only [dispatch]
      split_ifs with h1 h2 h3 h4
      · exact goodState_create host size identity h
      · exact goodState_close h
      · rw [hideTracker_fst]
        exact h
      · exact h
      · exact h
  | undef => exact h
  | null => exact h
  | bool b => exact h
  | num q => exact h
  | obj fields => exact h

/-- Delivering one control-channel message preserves the
tracker-reference/window agreement (a thrown `TypeError` leaves the state
untouched). -/
lemma goodState_step (host : Host) (size : TrackerSize) (identity : String)
    {st : CoordState} (arg : JSValue) (h : goodState st) :
    goodState (stepChannelMessage host size identity st arg) := by
  unfold stepChannelMessage onScreenSharingEvent
  cases hd : getProp arg "data" with
  | error e =>
      simp only [hd]
      exact h
  | ok data =>
      cases hn : getProp data "name" with
      | error e =>
          simp only [hd, hn]
          exact h
      | ok name =>
          simp only [hd, hn]
          exact goodState_dispatch host size identity data name h

/-- Delivering any sequence of control-channel messages preserves the
tracker-reference/window agreement. -/
lemma goodState_runMessages (host : Host) (size : TrackerSize) (identity : String)
    (msgs : List JSValue) :
    ∀ st : CoordState, goodState st →
      goodState (runMessages host size identity st msgs) := by
  induction msgs with
  | nil =>
      intro st h
      exact h
  | cons m rest ih =>
      intro st h
      have hstep : runMessages host size identity st (m :: rest) =
          runMessages host size identity (stepChannelMessage host size identity st m) rest := by
        simp [runMessages]
      rw [hstep]
      exact ih _ (goodState_step host size identity m h)

/-- A well-formed state has at most one live tracker window. -/
lemma length_le_one_of_goodState {st : CoordState} (h : goodState st) :
    st.liveTrackers.length ≤ 1 := by
  unfold goodState at h
  cases hst : st.screenShareTracker with
  | some wid =>
      rw [hst] at h
      rw [h]
      exact Nat.le_refl 1
  | none =>
      rw [hst] at h
      rw [h]
      exact Nat.zero_le 1

/-- A fresh creation records exactly one `createWindow` call. -/
lemma createdWindowCount_create (host : Host) (size : TrackerSize) (identity : String)
    {st : CoordState} (h : st.screenShareTracker = none) :
    createdWindowCount (createScreenShareTracker host size identity st).2 = 1 := by
  simp only [createScreenShareTracker, h]
  by_cases hc : host.platform ≠ "win32" ∨ host.windowsEnableScreenProtection host.osRelease = true
  · simp [createdWindowCount, contentProtectionEffects, hc]
  · simp [createdWindowCount, contentProtectionEffects, hc]

/-- C1: across any control-channel event sequence from the initial state
at most one tracker window is ever alive; `OPEN_TRACKER` dispatches to
`_createScreenShareTracker`; with no tracker referenced it creates exactly
one window (one `createWindow` call, the new window referenced and the
single live window); with a tracker referenced it creates no window and
changes nothing. -/
theorem at_most_one_tracker_open_idempotent (host : Host) (size : TrackerSize)
    (identity : String) (msgs : List JSValue) (st : CoordState) (data : JSValue) :
    (runMessages host size identity initialState msgs).liveTrackers.length ≤ 1
    ∧ dispatch host size identity st data (JSValue.str OPEN_TRACKER) =
        createScreenShareTracker host size identity st
    ∧ (st.screenShareTracker = none →
        createdWindowCount (createScreenShareTracker host size identity st).2 = 1
        ∧ (createScreenShareTracker host size identity st).1.screenShareTracker =
            some st.nextId
        ∧ (goodState st →
            (createScreenShareTracker host size identity st).1.liveTrackers.length = 1))
    ∧ (∀ wid, st.screenShareTracker = some wid →
        createScreenShareTracker host size identity st = (st, [])
        ∧ createdWindowCount (createScreenShareTracker host size identity st).2 = 0) := by
  refine ⟨?_, ?_, ?_, ?_⟩
  · exact length_le_one_of_goodState
      (goodState_runMessages host size identity msgs initialState goodState_initialState)
  · simp [dispatch]
  · intro h
    refine ⟨createdWindowCount_create host size identity h, ?_, ?_⟩
    · simp [createScreenShareTracker, h]
    · intro hg
      have hl : st.liveTrackers = [] := by
        unfold goodState at hg
        rw [h] at hg
        exact hg
      simp [createScreenShareTracker, h, hl]
  · intro wid hw
    constructor
    · simp [createScreenShareTracker, hw]
    · simp [createScreenShareTracker, hw, createdWindowCount]

/-- Witness for C1: two consecutive `OPEN_TRACKER` envelopes leave at
most one live window, and creation on a state with a referenced tracker
is a no-op. -/
theorem at_most_one_tracker_open_idempotent_witness :
    (runMessages hostA sizeA "app" initialState
        [envelopeOf OPEN_TRACKER, envelopeOf OPEN_TRACKER]).liveTrackers.length ≤ 1
    ∧ createScreenShareTracker hostA sizeA "app" stTracker = (stTracker, []) := by
  constructor
  · exact (at_most_one_tracker_open_idempotent hostA sizeA "app"
      [envelopeOf OPEN_TRACKER, envelopeOf OPEN_TRACKER] initialState JSValue.undef).1
  · exact ((at_most_one_tracker_open_idempotent hostA sizeA "app" [] stTracker
      JSValue.undef).2.2.2 0 rfl).1

end ScreenShare
